import Mathlib

set_option maxRecDepth 8000

/-!
Shallow embedding of the Tour Guide pipeline core, verified against its
natural-language specification.

Source of the embedding (Python):
- `tour_guide/route_fetcher/models.py` (Junction, Route)
- `tour_guide/agent_orchestrator/models.py` (AgentType, AgentResult,
  JudgeDecision, JunctionResults, FinalReport)
- `tour_guide/agent_orchestrator/judge_agent.py` (JudgeAgent)
- `tour_guide/agent_orchestrator/junction_processor.py` (JunctionProcessor)
- `tour_guide/junction_orchestrator/models.py` (DispatchMode,
  OrchestratorState, OrchestratorConfig, JunctionEvent)
- `tour_guide/junction_orchestrator/tempo_controller.py` (TempoController)
- `junction_orchestrator/orchestrator.py` (JunctionOrchestrator)

Machine floats of the source are modelled as exact rationals; wall-clock
readings (`datetime.now()`, `time.time()`) are threaded as an explicit
`now : ℚ` parameter, and thread scheduling is abstracted by passing the
set of delivered results / the observed stop point explicitly.
-/

/-- Source: `route_fetcher.models.TurnDirection`. -/
inductive TurnDirection
  | left | right | straight | slight_left | slight_right
  | sharp_left | sharp_right | u_turn | merge | ramp
  | fork | roundabout | destination
deriving DecidableEq

/-- Source: `route_fetcher.models.Coordinates`. -/
structure Coordinates where
  latitude : ℚ
  longitude : ℚ
deriving DecidableEq

/-- Source: `route_fetcher.models.Junction`. -/
structure Junction where
  junction_id : Int
  address : String
  street_name : String
  coordinates : Coordinates
  turn_direction : TurnDirection
  instruction : String
  distance_to_next_meters : Int
  distance_to_next_text : String
  duration_to_next_seconds : Int
  duration_to_next_text : String
  cumulative_distance_meters : Int := 0
  cumulative_duration_seconds : Int := 0
  maneuver : Option String := none
  neighborhood : Option String := none
  landmarks_nearby : List String := []
deriving DecidableEq

/-- Source: `route_fetcher.models.Route`. -/
structure Route where
  source_address : String
  destination_address : String
  total_distance_meters : Int
  total_distance_text : String
  total_duration_seconds : Int
  total_duration_text : String
  junctions : List Junction
  polyline : Option String := none
  warnings : List String := []
  copyrights : Option String := none
deriving DecidableEq

/-- Source: `agent_orchestrator.models.AgentType`. -/
inductive AgentType
  | video | music | history | judge
deriving DecidableEq

/-- Source: `AgentType.value`: the string value of the Python enum member. -/
def AgentType.value : AgentType → String
  | .video => "video"
  | .music => "music"
  | .history => "history"
  | .judge => "judge"

/-- Source: `agent_orchestrator.models.AgentResult` (one contestant's output). -/
structure AgentResult where
  agent_type : AgentType
  agent_name : String
  junction_id : Int
  junction_address : String
  title : String
  description : String
  url : Option String := none
  relevance_score : ℚ := 0
  quality_score : ℚ := 0
  confidence : ℚ := 0
  processing_time_ms : ℚ := 0
  error : Option String := none
deriving DecidableEq

/-- Source: `AgentResult.is_success`: `error is None and title != ""`. -/
def AgentResult.is_success (r : AgentResult) : Bool :=
  r.error.isNone && !(r.title == "")

/-- Source: `agent_orchestrator.models.JudgeDecision`; `timestamp` and the
wall-clock `decision_time_ms` are not modelled. The judge-score dict is
a key-value list in insertion order (`dictGet` has Python-dict lookup
semantics: last write to a key wins). -/
structure JudgeDecision where
  junction_id : Int
  junction_address : String
  winner : AgentResult
  winner_type : AgentType
  winning_score : ℚ
  contestants : List AgentResult := []
  reasoning : String := ""
  judge_scores : List (AgentType × ℚ) := []
deriving DecidableEq

/-- Python-dict lookup on an insertion-ordered key-value list: the value
of the last entry with the given key. -/
def dictGet (d : List (AgentType × ℚ)) (k : AgentType) : Option ℚ :=
  ((d.filter (fun p => p.1 == k)).getLast?).map Prod.snd

/-- Source: `judge_agent.FRESHNESS_MAX_TIME_MS`. -/
def FRESHNESS_MAX_TIME_MS : ℚ := 500

/-- Per-contestant weighted score from `JudgeAgent._calculate_scores`:
base = relevance*0.45 + quality*0.30 + confidence*0.15, plus
`max(0, (500 - processing_time_ms) / 500 * 10)` scaled by 0.10. -/
def judgeScore (c : AgentResult) : ℚ :=
  let score := c.relevance_score * (0.45 : ℚ) +
    c.quality_score * (0.30 : ℚ) +
    c.confidence * (0.15 : ℚ)
  let freshness_bonus : ℚ :=
    max 0 ((FRESHNESS_MAX_TIME_MS - c.processing_time_ms) / FRESHNESS_MAX_TIME_MS * 10)
  score + freshness_bonus * (0.10 : ℚ)

/-- Source: `JudgeAgent._calculate_scores`: builds the judge-score dict keyed by
`agent_type.value`, in contestant order (a later contestant of the same
type overwrites the earlier entry, as in a Python dict). -/
def calculateScores (contestants : List AgentResult) : List (AgentType × ℚ) :=
  contestants.map (fun c => (c.agent_type, judgeScore c))

/-- Python `max(l, key=key)`: first element achieving the maximal key
(CPython replaces the current maximum only on a strictly greater key).
`best` is the running maximum, seeded with the list head. -/
def pyMaxBy {α : Type} (key : α → ℚ) : α → List α → α
  | best, [] => best
  | best, c :: rest =>
    if key best < key c then pyMaxBy key c rest else pyMaxBy key best rest

/-- A single-quote character, used by the reasoning strings. -/
def sglq : String := String.singleton (Char.ofNat 39)

/-- Render a rational with one decimal digit (stand-in for the Python
`:.1f` format; no claim depends on the rendered digits). -/
def fmt1 (q : ℚ) : String :=
  let n : Int := round (q * 10)
  toString (n / 10) ++ "." ++ toString ((n % 10).natAbs)

/-- Source: `JudgeAgent._generate_reasoning`. `others` drops every contestant
structurally equal to the winner (Python dataclass `!=`). -/
def generateReasoning (winner : AgentResult) (contestants : List AgentResult)
    (scores : List (AgentType × ℚ)) : String :=
  let winner_type := winner.agent_type.value.capitalize
  let winner_score := (dictGet scores winner.agent_type).getD 0
  match contestants.filter (fun c => !(c == winner)) with
  | [] => winner_type ++ " wins by default with " ++ fmt1 winner_score ++ " points."
  | o :: os =>
    let key : AgentResult → ℚ := fun c => (dictGet scores c.agent_type).getD 0
    let runner_up := pyMaxBy key o os
    let margin := winner_score - key runner_up
    if 10 < margin then
      winner_type ++ " wins decisively with a score of " ++ fmt1 winner_score ++
        ". " ++ sglq ++ winner.title ++ sglq ++
        " offers the best combination of relevance and quality."
    else
      winner_type ++ " narrowly wins with " ++ fmt1 winner_score ++ " points. " ++
        sglq ++ winner.title ++ sglq ++ " edges out the competition by " ++
        fmt1 margin ++ " points."

/-- Source: `JudgeAgent._create_failed_decision`; `first` is `contestants[0]`,
passed explicitly because the caller has established non-emptiness. -/
def createFailedDecision (junction : Junction) (contestants : List AgentResult)
    (first : AgentResult) : JudgeDecision :=
  { junction_id := junction.junction_id
    junction_address := junction.address
    winner := first
    winner_type := first.agent_type
    winning_score := 0
    contestants := contestants
    reasoning := "All agents failed to produce valid results." }

/-- The key function of the argmax in `JudgeAgent.evaluate`:
`judge_scores[c.agent_type.value]` over the dict built from the valid
contestants; the 0 default of the lookup is unreachable, since every key
looked up belongs to a valid contestant and was inserted by
`calculateScores`. -/
def evalKey (valid : List AgentResult) (c : AgentResult) : ℚ :=
  (dictGet (calculateScores valid) c.agent_type).getD 0

/-- Source: `JudgeAgent.evaluate`. Raising `ValueError("No contestants to
evaluate")` is modelled as `Except.error`. -/
def JudgeAgent.evaluate : Junction → List AgentResult → Except String JudgeDecision
  | _, [] => Except.error "No contestants to evaluate"
  | junction, first :: rest =>
    match (first :: rest).filter (fun c => c.is_success) with
    | [] => Except.ok (createFailedDecision junction (first :: rest) first)
    | v :: vs =>
      let winner := pyMaxBy (evalKey (v :: vs)) v vs
      Except.ok
        { junction_id := junction.junction_id
          junction_address := junction.address
          winner := winner
          winner_type := winner.agent_type
          winning_score := evalKey (v :: vs) winner
          contestants := first :: rest
          reasoning := generateReasoning winner (v :: vs) (calculateScores (v :: vs))
          judge_scores := calculateScores (v :: vs) }

/-- The scoring formula exactly as the specification words it:
`score = relevance*0.45 + quality*0.30 + confidence*0.15 + freshness*0.10`
with `freshness = max(0, (500 - processing_time_ms) / 500 * 10)`. -/
def specScore (c : AgentResult) : ℚ :=
  let freshness : ℚ := max 0 ((500 - c.processing_time_ms) / 500 * 10)
  c.relevance_score * (0.45 : ℚ) + c.quality_score * (0.30 : ℚ) +
    c.confidence * (0.15 : ℚ) + freshness * (0.10 : ℚ)

/-- Source: `junction_orchestrator.models.DispatchMode`. -/
inductive DispatchMode
  | fixed_interval | real_time | distance_based | manual
deriving DecidableEq

/-- Source: `junction_orchestrator.models.OrchestratorState`. -/
inductive OrchestratorState
  | idle | running | paused | completed | error
deriving DecidableEq

/-- Source: `junction_orchestrator.models.OrchestratorConfig`. -/
structure OrchestratorConfig where
  junction_interval_seconds : ℚ := 30
  mode : DispatchMode := .fixed_interval
  time_scale : ℚ := 1
  distance_threshold_meters : Int := 500
  lookahead_count : Int := 1
  pre_dispatch_seconds : ℚ := 5
  include_route_context : Bool := true
  include_progress : Bool := true
  retry_on_error : Bool := true
  max_retries : Int := 3
deriving DecidableEq

/-- Source: `OrchestratorConfig.validate`: raises `ValueError` on a bad
parameter, else returns `True`. -/
def OrchestratorConfig.validate (c : OrchestratorConfig) : Except String Bool :=
  if c.junction_interval_seconds ≤ 0 then
    Except.error "junction_interval_seconds must be positive"
  else if c.time_scale ≤ 0 then
    Except.error "time_scale must be positive"
  else if c.lookahead_count < 1 then
    Except.error "lookahead_count must be at least 1"
  else
    Except.ok true

/-- Source: `junction_orchestrator.tempo_controller.TempoController`: mutable
timing state; wall-clock datetimes are rational seconds. -/
structure TempoController where
  config : OrchestratorConfig
  start_time : Option ℚ := none
  pause_time : Option ℚ := none
  paused_duration : ℚ := 0
  is_paused : Bool := false
deriving DecidableEq

/-- The `interval_seconds` property setter: rejects a non-positive
value with `ValueError("Interval must be positive")` before any state is
written; on success only `config.junction_interval_seconds` changes.
Returned as (call outcome, state after the call). -/
def TempoController.setIntervalSeconds (t : TempoController) (value : ℚ) :
    Except String Unit × TempoController :=
  if value ≤ 0 then
    (Except.error "Interval must be positive", t)
  else
    (Except.ok (),
     { t with config := { t.config with junction_interval_seconds := value } })

/-- Source: `TempoController.start`: records the epoch and clears pause
accounting (the source does not reset `_pause_time`). -/
def TempoController.start (t : TempoController) (now : ℚ) : TempoController :=
  { t with start_time := some now, paused_duration := 0, is_paused := false }

/-- Source: `TempoController.elapsed_seconds`, at wall-clock `now`. -/
def TempoController.elapsedSeconds (t : TempoController) (now : ℚ) : ℚ :=
  match t.start_time with
  | none => 0
  | some s =>
    let total := now - s
    let total :=
      if t.is_paused && t.pause_time.isSome then
        total - (now - t.pause_time.getD now)
      else total
    total - t.paused_duration

/-- Source: `TempoController.get_dispatch_time`: sets the epoch to `now` if it
was never recorded; every mode other than FIXED_INTERVAL falls through
to the same fixed-interval expression. Returns (state after the call,
scheduled time). -/
def TempoController.getDispatchTime (t : TempoController) (now : ℚ)
    (junction_index : Nat) : TempoController × ℚ :=
  let t1 := match t.start_time with
    | none => { t with start_time := some now }
    | some _ => t
  let epoch := t1.start_time.getD now
  if t1.config.mode = DispatchMode.fixed_interval then
    (t1, epoch + (junction_index : ℚ) * t1.config.junction_interval_seconds)
  else
    (t1, epoch + (junction_index : ℚ) * t1.config.junction_interval_seconds)

/-- Source: `TempoController.get_dispatch_time_realtime`: epoch plus
`max(0, cumulative_duration / time_scale - pre_dispatch_seconds)`. -/
def TempoController.getDispatchTimeRealtime (t : TempoController) (now : ℚ)
    (junction : Junction) : TempoController × ℚ :=
  let t1 := match t.start_time with
    | none => { t with start_time := some now }
    | some _ => t
  let epoch := t1.start_time.getD now
  let scaled_duration := (junction.cumulative_duration_seconds : ℚ) / t1.config.time_scale
  let adjusted_duration := max 0 (scaled_duration - t1.config.pre_dispatch_seconds)
  (t1, epoch + adjusted_duration)

/-- Source: `TempoController.generate_schedule`: calls `start()` (epoch := now),
then yields `(index, junction, scheduled_time)` per junction; the
real-time formula is used only when the mode is REAL_TIME and a route
was passed (a present route is always truthy). -/
def TempoController.generateSchedule (t : TempoController) (now : ℚ)
    (junctions : List Junction) (route : Option Route) :
    List (Nat × Junction × ℚ) :=
  let t1 := t.start now
  junctions.enum.map (fun p =>
    if t1.config.mode = DispatchMode.real_time && route.isSome then
      (p.1, p.2, (t1.getDispatchTimeRealtime now p.2).2)
    else
      (p.1, p.2, (t1.getDispatchTime now p.1).2))

/-- Source: `junction_orchestrator.models.JunctionEvent`; `event_id` (a random
uuid) is modelled as "", and both clock readings are `now`. -/
structure JunctionEvent where
  junction : Junction
  dispatch_time : ℚ
  scheduled_time : ℚ
  junction_index : Nat
  total_junctions : Nat
  delay_seconds : ℚ := 0
  is_first : Bool := false
  is_last : Bool := false
  progress_percent : ℚ := 0
  elapsed_seconds : ℚ := 0
  remaining_junctions : Int := 0
  route : Option Route := none
  previous_junction : Option Junction := none
  next_junction : Option Junction := none
  event_id : String := ""
deriving DecidableEq

/-- Source: `JunctionOrchestrator._create_event`, for the current route, with the
tempo controller supplying `elapsed_seconds`. Index arithmetic is Python
int arithmetic, hence `Int` where a subtraction appears. -/
def JunctionOrchestrator.createEvent (t : TempoController) (route : Route)
    (now : ℚ) (junction : Junction) (index : Nat) (scheduled_time : ℚ) :
    JunctionEvent :=
  let total := route.junctions.length
  let base : JunctionEvent :=
    { junction := junction
      dispatch_time := now
      scheduled_time := scheduled_time
      delay_seconds := now - scheduled_time
      junction_index := index
      total_junctions := total
      is_first := decide (index = 0)
      is_last := decide ((index : Int) = (total : Int) - 1)
      progress_percent := if 0 < total then ((index : ℚ) / (total : ℚ)) * 100 else 0
      elapsed_seconds := t.elapsedSeconds now
      remaining_junctions := (total : Int) - (index : Int) - 1 }
  if t.config.include_route_context then
    { base with
      route := some route
      previous_junction := if 0 < index then route.junctions.get? (index - 1) else none
      next_junction := if (index : Int) < (total : Int) - 1 then route.junctions.get? (index + 1) else none }
  else base

/-- Whether the dispatch loop's stop-flag check at schedule position `i`
observes the flag: `stopAt = some k` means `stop()` was called between
iterations `k-1` and `k` (the flag, once set, stays set). -/
def stopSeen (stopAt : Option Nat) (i : Nat) : Bool :=
  match stopAt with
  | none => false
  | some k => decide (k ≤ i)

/-- The dispatch loop body of `JunctionOrchestrator._run_sync`: walk the
precomputed schedule, break when the stop flag is observed, otherwise
create and dispatch one event per entry. Pause spinning and
`wait_until` only affect wall-clock time, which is abstracted to the
fixed reading `now`. -/
def JunctionOrchestrator.runSyncLoop (t : TempoController) (route : Route)
    (now : ℚ) (stopAt : Option Nat) :
    List (Nat × Junction × ℚ) → List JunctionEvent
  | [] => []
  | (i, j, st) :: rest =>
    if stopSeen stopAt i then []
    else
      JunctionOrchestrator.createEvent t route now j i st ::
        JunctionOrchestrator.runSyncLoop t route now stopAt rest

/-- Source: `JunctionOrchestrator._run_sync` with a current route: generate the
schedule, run the dispatch loop, then set the state — the source assigns
`OrchestratorState.COMPLETED` unconditionally after the loop, whether or
not the loop was broken by the stop flag. Returns (events dispatched in
order, state at the end of `_run_sync`). -/
def JunctionOrchestrator.runSync (t : TempoController) (now : ℚ)
    (route : Route) (stopAt : Option Nat) :
    List JunctionEvent × OrchestratorState :=
  let schedule := t.generateSchedule now route.junctions (some route)
  let t1 := t.start now
  (JunctionOrchestrator.runSyncLoop t1 route now stopAt schedule,
   OrchestratorState.completed)

/-- Source: `agent_orchestrator.models.JunctionResults`; wall-clock timestamps
are not modelled. -/
structure JunctionResults where
  junction : Junction
  junction_index : Nat
  video_result : Option AgentResult := none
  music_result : Option AgentResult := none
  history_result : Option AgentResult := none
  decision : Option JudgeDecision := none
  is_complete : Bool := false
  errors : List String := []
deriving DecidableEq

/-- Slot assignment from `JunctionProcessor.process`: each drained
result is stored in the slot of its agent type (the JUDGE type has no
slot and falls through). -/
def assignSlot (jr : JunctionResults) (r : AgentResult) : JunctionResults :=
  if r.agent_type = AgentType.video then { jr with video_result := some r }
  else if r.agent_type = AgentType.music then { jr with music_result := some r }
  else if r.agent_type = AgentType.history then { jr with history_result := some r }
  else jr

/-- Source: `JunctionProcessor.process`, with the thread fan-out/fan-in
abstracted: `received` is the list drained from the results queue (in
queue order), holding the success-or-failure result of every contestant
thread that finished within the timeout budget. -/
def JunctionProcessor.process (junction : Junction) (junction_index : Nat)
    (received : List AgentResult) : JunctionResults :=
  let jr0 : JunctionResults := { junction := junction, junction_index := junction_index }
  let jr1 := received.foldl assignSlot jr0
  let receivedTypes := received.map (fun r => r.agent_type)
  let missing := [AgentType.video, AgentType.music, AgentType.history].filter
    (fun ty => !(receivedTypes.contains ty))
  let jr2 := { jr1 with
    errors := jr1.errors ++
      missing.map (fun (ty : AgentType) => ty.value ++ " agent timed out") }
  match received with
  | [] => { jr2 with errors := jr2.errors ++ ["No agent results to evaluate"] }
  | _ :: _ =>
    match JudgeAgent.evaluate junction received with
    | Except.ok d => { jr2 with decision := some d, is_complete := true }
    | Except.error e => { jr2 with errors := jr2.errors ++ ["Judge error: " ++ e] }

/-- Source: `agent_orchestrator.models.FinalReport` (counters and results only;
wall-clock timestamps are not modelled). -/
structure FinalReport where
  source_address : String
  destination_address : String
  total_junctions : Nat
  junction_results : List JunctionResults := []
  video_wins : Nat := 0
  music_wins : Nat := 0
  history_wins : Nat := 0
  failed_junctions : Nat := 0
  total_errors : Nat := 0
deriving DecidableEq

/-- Source: `FinalReport.success_rate`: guarded percentage of junctions that
completed. -/
def FinalReport.success_rate (r : FinalReport) : ℚ :=
  if r.total_junctions = 0 then 0
  else ((r.total_junctions : ℚ) - (r.failed_junctions : ℚ)) /
    (r.total_junctions : ℚ) * 100

instance {ε α : Type} [DecidableEq ε] [DecidableEq α] : DecidableEq (Except ε α)
  | Except.error e, Except.error f =>
    if h : e = f then isTrue (congrArg Except.error h)
    else isFalse (fun hc => h (Except.error.inj hc))
  | Except.error _, Except.ok _ => isFalse (fun hc => Except.noConfusion hc)
  | Except.ok _, Except.error _ => isFalse (fun hc => Except.noConfusion hc)
  | Except.ok x, Except.ok y =>
    if h : x = y then isTrue (congrArg Except.ok h)
    else isFalse (fun hc => h (Except.ok.inj hc))

/-- Concrete junction used by witnesses and counterexamples. -/
def jX : Junction :=
  { junction_id := 1
    address := "Main St and 5th Ave"
    street_name := "Main St"
    coordinates := { latitude := 32, longitude := 34 }
    turn_direction := TurnDirection.left
    instruction := "Turn left onto Main St"
    distance_to_next_meters := 100
    distance_to_next_text := "100 m"
    duration_to_next_seconds := 60
    duration_to_next_text := "1 min"
    cumulative_duration_seconds := 120 }

/-- Second concrete junction. -/
def jY : Junction :=
  { junction_id := 2
    address := "Oak St"
    street_name := "Oak St"
    coordinates := { latitude := 32, longitude := 35 }
    turn_direction := TurnDirection.right
    instruction := "Turn right onto Oak St"
    distance_to_next_meters := 200
    distance_to_next_text := "200 m"
    duration_to_next_seconds := 90
    duration_to_next_text := "2 mins"
    cumulative_duration_seconds := 300 }

/-- Concrete two-junction route. -/
def route2 : Route :=
  { source_address := "A"
    destination_address := "B"
    total_distance_meters := 300
    total_distance_text := "300 m"
    total_duration_seconds := 150
    total_duration_text := "3 mins"
    junctions := [jX, jY] }

/-- Tempo controller with the default (fixed-interval) configuration. -/
def tcFixed : TempoController := { config := {} }

/-- A successful video result. -/
def rVid : AgentResult :=
  { agent_type := AgentType.video
    agent_name := "Video"
    junction_id := 1
    junction_address := "Main St and 5th Ave"
    title := "Main Street Walking Tour"
    description := "A walking tour video"
    relevance_score := 90
    quality_score := 90
    confidence := 90
    processing_time_ms := 100 }

/-- A failed music result (error set, empty title). -/
def rMusFail : AgentResult :=
  { agent_type := AgentType.music
    agent_name := "Music"
    junction_id := 1
    junction_address := "Main St and 5th Ave"
    title := ""
    description := ""
    error := some "API timeout" }

/-- Counterexample candidate: a valid video result scoring 72. -/
def rCexA : AgentResult :=
  { agent_type := AgentType.video
    agent_name := "Video"
    junction_id := 1
    junction_address := "Main St and 5th Ave"
    title := "First video"
    description := "d"
    relevance_score := 80
    quality_score := 80
    confidence := 80
    processing_time_ms := 500 }

/-- Counterexample candidate: a second valid video result scoring 36,
which overwrites the score-dict entry of `rCexA`. -/
def rCexB : AgentResult :=
  { agent_type := AgentType.video
    agent_name := "Video"
    junction_id := 1
    junction_address := "Main St and 5th Ave"
    title := "Second video"
    description := "d"
    relevance_score := 40
    quality_score := 40
    confidence := 40
    processing_time_ms := 500 }

/-- Counterexample candidate: a valid music result scoring 54. -/
def rCexC : AgentResult :=
  { agent_type := AgentType.music
    agent_name := "Music"
    junction_id := 1
    junction_address := "Main St and 5th Ave"
    title := "A song"
    description := "d"
    relevance_score := 60
    quality_score := 60
    confidence := 60
    processing_time_ms := 500 }












theorem specScore_eq_judgeScore (c : AgentResult) : specScore c = judgeScore c := by
  simp [specScore, judgeScore, FRESHNESS_MAX_TIME_MS]

/-- Pointwise-equal functions give equal maps. -/
theorem list_map_congr_fun {α β : Type} {f g : α → β} (h : ∀ a, f a = g a) :
    ∀ l : List α, l.map f = l.map g := by
  intro l
  induction l with
  | nil => rfl
  | cons x xs ih => simp [h, ih]

/-- The function `pyMaxBy` returns the first element of `b :: l` achieving the
maximum of `key`: it is an upper bound for every element, and every
element strictly before it in the list has a strictly smaller key. -/
theorem pyMaxBy_first_max {α : Type} (key : α → ℚ) :
    ∀ (l : List α) (b : α),
      ∃ pre post, b :: l = pre ++ pyMaxBy key b l :: post ∧
        (∀ c ∈ pre, key c < key (pyMaxBy key b l)) ∧
        (∀ c ∈ b :: l, key c ≤ key (pyMaxBy key b l)) := by
  intro l
  induction l with
  | nil =>
    intro b
    refine ⟨[], [], rfl, by simp, ?_⟩
    intro c hc
    simp only [List.mem_singleton] at hc
    simp [hc, pyMaxBy]
  | cons c rest ih =>
    intro b
    simp only [pyMaxBy]
    by_cases h : key b < key c
    · simp only [if_pos h]
      obtain ⟨pre, post, hdec, hlt, hle⟩ := ih c
      have hcmax : key c ≤ key (pyMaxBy key c rest) := hle c (List.mem_cons_self c rest)
      refine ⟨b :: pre, post, ?_, ?_, ?_⟩
      · rw [List.cons_append, ← hdec]
      · intro x hx
        rcases List.mem_cons.mp hx with rfl | hx
        · exact lt_of_lt_of_le h hcmax
        · exact hlt x hx
      · intro x hx
        rcases List.mem_cons.mp hx with rfl | hx
        · exact le_of_lt (lt_of_lt_of_le h hcmax)
        · exact hle x hx
    · simp only [if_neg h]
      push_neg at h
      obtain ⟨pre, post, hdec, hlt, hle⟩ := ih b
      cases pre with
      | nil =>
        simp only [List.nil_append] at hdec
        obtain ⟨hb, hrest⟩ := List.cons.inj hdec
        refine ⟨[], c :: rest, ?_, by simp, ?_⟩
        · rw [List.nil_append, ← hb]
        · intro x hx
          rcases List.mem_cons.mp hx with rfl | hx
          · exact le_of_eq (congrArg key hb)
          · rcases List.mem_cons.mp hx with rfl | hx
            · calc key x ≤ key b := h
                _ ≤ _ := hle b (List.mem_cons_self b rest)
            · exact hle x (List.mem_cons_of_mem b hx)
      | cons p0 pre1 =>
        simp only [List.cons_append] at hdec
        obtain ⟨hb, hrest⟩ := List.cons.inj hdec
        have hkb : key b < key (pyMaxBy key b rest) := by
          have := hlt p0 (List.mem_cons_self p0 pre1)
          rw [← hb] at this
          exact this
        refine ⟨b :: c :: pre1, post, ?_, ?_, ?_⟩
        · simp only [List.cons_append]
          rw [← hrest]
        · intro x hx
          rcases List.mem_cons.mp hx with rfl | hx
          · exact hkb
          · rcases List.mem_cons.mp hx with rfl | hx
            · exact lt_of_le_of_lt h hkb
            · exact hlt x (List.mem_cons_of_mem p0 hx)
        · intro x hx
          rcases List.mem_cons.mp hx with rfl | hx
          · exact le_of_lt hkb
          · rcases List.mem_cons.mp hx with rfl | hx
            · exact le_of_lt (lt_of_le_of_lt h hkb)
            · exact hle x (List.mem_cons_of_mem b hx)

/-- When no contestant of `l` has type `k`, the judge-score dict built
from `l` has no entry for `k`. -/
theorem calculateScores_filter_nil (l : List AgentResult) (k : AgentType)
    (hk : k ∉ l.map (fun r => r.agent_type)) :
    (calculateScores l).filter (fun p => p.1 == k) = [] := by
  induction l with
  | nil => rfl
  | cons x xs ih =>
    simp only [List.map_cons, List.mem_cons, not_or] at hk
    obtain ⟨hx, hxs⟩ := hk
    simp only [calculateScores, List.map_cons, List.filter_cons]
    have : ((x.agent_type, judgeScore x).1 == k) = false := by
      simp [Ne.symm hx]
    rw [this]
    simp only [calculateScores] at ih
    exact ih hxs

/-- Under pairwise-distinct contestant types, the dict lookup for a
member's type returns exactly that member's weighted score. -/
theorem dictGet_calculateScores {l : List AgentResult} {c : AgentResult}
    (hnd : (l.map (fun r => r.agent_type)).Nodup) (hc : c ∈ l) :
    dictGet (calculateScores l) c.agent_type = some (judgeScore c) := by
  induction l with
  | nil => cases hc
  | cons x xs ih =>
    simp only [List.map_cons, List.nodup_cons] at hnd
    obtain ⟨hx, hnd1⟩ := hnd
    rcases List.mem_cons.mp hc with rfl | hc1
    · unfold dictGet
      simp only [calculateScores, List.map_cons, List.filter_cons]
      have hhd : ((c.agent_type, judgeScore c).1 == c.agent_type) = true := by simp
      rw [hhd]
      have htl := calculateScores_filter_nil xs c.agent_type hx
      simp only [calculateScores] at htl
      simp [htl]
    · have hne : (x.agent_type == c.agent_type) = false := by
        have : x.agent_type ≠ c.agent_type := by
          intro hcontra
          exact hx (hcontra ▸ List.mem_map_of_mem (fun r => r.agent_type) hc1)
        simp [this]
      unfold dictGet
      simp only [calculateScores, List.map_cons, List.filter_cons]
      rw [show ((x.agent_type, judgeScore x).1 == c.agent_type) = false from hne]
      exact ih hnd1 hc1

/-- Under pairwise-distinct valid-contestant types, the judge's argmax
key agrees with the per-contestant weighted score on every member. -/
theorem evalKey_eq_judgeScore {valid : List AgentResult} {c : AgentResult}
    (hnd : (valid.map (fun r => r.agent_type)).Nodup) (hc : c ∈ valid) :
    evalKey valid c = judgeScore c := by
  unfold evalKey
  rw [dictGet_calculateScores hnd hc]
  rfl

/-- Shape of `JudgeAgent.evaluate` when the valid-contestant filter is
non-empty. -/
theorem evaluate_valid_eq (junction : Junction) (first : AgentResult)
    (rest : List AgentResult) (v : AgentResult) (vs : List AgentResult)
    (h : (first :: rest).filter (fun c => c.is_success) = v :: vs) :
    JudgeAgent.evaluate junction (first :: rest) = Except.ok
      { junction_id := junction.junction_id
        junction_address := junction.address
        winner := pyMaxBy (evalKey (v :: vs)) v vs
        winner_type := (pyMaxBy (evalKey (v :: vs)) v vs).agent_type
        winning_score := evalKey (v :: vs) (pyMaxBy (evalKey (v :: vs)) v vs)
        contestants := first :: rest
        reasoning := generateReasoning (pyMaxBy (evalKey (v :: vs)) v vs)
          (v :: vs) (calculateScores (v :: vs))
        judge_scores := calculateScores (v :: vs) } := by
  simp only [JudgeAgent.evaluate]
  rw [h]

/-- Shape of `JudgeAgent.evaluate` when every contestant failed. -/
theorem evaluate_all_failed_eq (junction : Junction) (first : AgentResult)
    (rest : List AgentResult)
    (h : (first :: rest).filter (fun c => c.is_success) = []) :
    JudgeAgent.evaluate junction (first :: rest) =
      Except.ok (createFailedDecision junction (first :: rest) first) := by
  simp only [JudgeAgent.evaluate]
  rw [h]

/-- The model `JudgeAgent.evaluate` returns a decision for every non-empty input. -/
theorem evaluate_ok_of_ne_nil (junction : Junction) (cs : List AgentResult)
    (h : cs ≠ []) : ∃ d, JudgeAgent.evaluate junction cs = Except.ok d := by
  cases cs with
  | nil => exact absurd rfl h
  | cons first rest =>
    cases hf : (first :: rest).filter (fun c => c.is_success) with
    | nil => exact ⟨_, evaluate_all_failed_eq junction first rest hf⟩
    | cons v vs => exact ⟨_, evaluate_valid_eq junction first rest v vs hf⟩

/-- C6: a ContestantResult is a failure (excluded from the Arbiter's
valid-candidate set) exactly when its error is present or its title is
empty; every other result is a success. -/
theorem failure_iff_error_or_empty_title (r : AgentResult) :
    r.is_success = false ↔ (r.error ≠ none ∨ r.title = "") := by
  unfold AgentResult.is_success
  cases he : r.error <;> simp [he]

/-- C5: the Arbiter raises (only) the no-candidates error exactly on an
empty candidate list, and returns a decision for every non-empty list. -/
theorem arbiter_error_iff_empty (junction : Junction) (cs : List AgentResult) :
    ((∃ e, JudgeAgent.evaluate junction cs = Except.error e) ↔ cs = []) ∧
    (cs ≠ [] → ∃ d, JudgeAgent.evaluate junction cs = Except.ok d) := by
  constructor
  · constructor
    · rintro ⟨e, he⟩
      by_contra hne
      obtain ⟨d, hd⟩ := evaluate_ok_of_ne_nil junction cs hne
      rw [hd] at he
      exact Except.noConfusion he
    · rintro rfl
      exact ⟨"No contestants to evaluate", rfl⟩
  · exact evaluate_ok_of_ne_nil junction cs

/-- Witness for C5 at a concrete singleton list. -/
theorem arbiter_error_iff_empty_witness :
    ([rMusFail] ≠ ([] : List AgentResult)) ∧
    (∃ d, JudgeAgent.evaluate jX [rMusFail] = Except.ok d) :=
  ⟨by decide, (arbiter_error_iff_empty jX [rMusFail]).2 (by decide)⟩

/-- C4: on a non-empty list in which every candidate failed, the Arbiter
returns (not an error) a decision with winner `candidates[0]`, winning
score 0, and the exact all-failed reasoning string. -/
theorem arbiter_all_failed_decision (junction : Junction) (c0 : AgentResult)
    (rest : List AgentResult) (hf : ∀ c ∈ c0 :: rest, c.is_success = false) :
    ∃ d, JudgeAgent.evaluate junction (c0 :: rest) = Except.ok d ∧
      d.winner = c0 ∧ d.winning_score = 0 ∧
      d.reasoning = "All agents failed to produce valid results." := by
  have hfil : (c0 :: rest).filter (fun c => c.is_success) = [] := by
    rw [List.filter_eq_nil_iff]
    intro a ha
    simp [hf a ha]
  exact ⟨_, evaluate_all_failed_eq junction c0 rest hfil, rfl, rfl, rfl⟩

/-- Witness for C4 at a concrete all-failed list. -/
theorem arbiter_all_failed_decision_witness :
    (∀ c ∈ [rMusFail], c.is_success = false) ∧
    (∃ d, JudgeAgent.evaluate jX [rMusFail] = Except.ok d ∧
      d.winner = rMusFail ∧ d.winning_score = 0 ∧
      d.reasoning = "All agents failed to produce valid results.") :=
  ⟨by decide, arbiter_all_failed_decision jX rMusFail [] (by decide)⟩

/-- C1 (amended with the pairwise-distinct-kinds hypothesis): when the
valid candidates have pairwise distinct agent kinds, the decision's
winning score is the maximum of the spec's weighted-score formula over
the valid candidates, the winner is a valid candidate achieving it, and
the winner is the first valid candidate (in input order) achieving it:
every valid candidate strictly before it scores strictly less. -/
theorem arbiter_winning_score_max_first (junction : Junction)
    (contestants : List AgentResult) (v : AgentResult) (vs : List AgentResult)
    (hval : contestants.filter (fun c => c.is_success) = v :: vs)
    (hnd : ((v :: vs).map (fun r => r.agent_type)).Nodup) :
    ∃ d, JudgeAgent.evaluate junction contestants = Except.ok d ∧
      d.winner ∈ v :: vs ∧
      specScore d.winner = d.winning_score ∧
      (∀ c ∈ v :: vs, specScore c ≤ d.winning_score) ∧
      ∃ pre post, v :: vs = pre ++ d.winner :: post ∧
        ∀ c ∈ pre, specScore c < d.winning_score := by
  cases contestants with
  | nil => simp at hval
  | cons first rest =>
    obtain ⟨pre, post, hdec, hlt, hle⟩ := pyMaxBy_first_max (evalKey (v :: vs)) vs v
    have hwmem : pyMaxBy (evalKey (v :: vs)) v vs ∈ v :: vs := by
      have h1 : pyMaxBy (evalKey (v :: vs)) v vs ∈
          pre ++ pyMaxBy (evalKey (v :: vs)) v vs :: post :=
        List.mem_append_right pre (List.mem_cons_self _ _)
      rw [← hdec] at h1
      exact h1
    have hkey : ∀ c ∈ v :: vs, evalKey (v :: vs) c = judgeScore c :=
      fun c hc => evalKey_eq_judgeScore hnd hc
    refine ⟨_, evaluate_valid_eq junction first rest v vs hval, hwmem, ?_, ?_, ?_⟩
    · show specScore (pyMaxBy (evalKey (v :: vs)) v vs) =
        evalKey (v :: vs) (pyMaxBy (evalKey (v :: vs)) v vs)
      rw [specScore_eq_judgeScore, hkey _ hwmem]
    · intro c hc
      show specScore c ≤ evalKey (v :: vs) (pyMaxBy (evalKey (v :: vs)) v vs)
      rw [specScore_eq_judgeScore, ← hkey c hc]
      exact hle c hc
    · refine ⟨pre, post, hdec, ?_⟩
      intro c hcp
      have hcmem : c ∈ v :: vs := by
        have h1 : c ∈ pre ++ pyMaxBy (evalKey (v :: vs)) v vs :: post :=
          List.mem_append_left _ hcp
        rw [← hdec] at h1
        exact h1
      show specScore c < evalKey (v :: vs) (pyMaxBy (evalKey (v :: vs)) v vs)
      rw [specScore_eq_judgeScore, ← hkey c hcmem]
      exact hlt c hcp

/-- Witness for the amended C1 at a concrete mixed list (one failed
candidate, two valid candidates of distinct kinds). -/
theorem arbiter_winning_score_max_first_witness :
    ([rVid, rMusFail, rCexC].filter (fun c => c.is_success) = [rVid, rCexC]) ∧
    (([rVid, rCexC].map (fun r => r.agent_type)).Nodup) ∧
    (∃ d, JudgeAgent.evaluate jX [rVid, rMusFail, rCexC] = Except.ok d ∧
      d.winner ∈ [rVid, rCexC] ∧
      specScore d.winner = d.winning_score ∧
      (∀ c ∈ [rVid, rCexC], specScore c ≤ d.winning_score) ∧
      ∃ pre post, [rVid, rCexC] = pre ++ d.winner :: post ∧
        ∀ c ∈ pre, specScore c < d.winning_score) :=
  ⟨by decide, by decide,
    arbiter_winning_score_max_first jX [rVid, rMusFail, rCexC] rVid [rCexC]
      (by decide) (by decide)⟩

/-- C1 counterexample: with two valid candidates of the same kind, the
dict-keyed scoring makes the decision's winning score 54 while the
maximum of the specification's formula over the valid candidates is 72
(achieved by the first video candidate), so the claim fails on a list
whose valid candidates do not have pairwise distinct kinds. -/
theorem arbiter_winning_score_counterexample :
    (JudgeAgent.evaluate jX [rCexA, rCexB, rCexC]).map (fun d => d.winning_score) =
      Except.ok 54 ∧
    rCexA ∈ [rCexA, rCexB, rCexC].filter (fun c => c.is_success) ∧
    specScore rCexA = 72 ∧ ¬ ((54 : ℚ) = 72) := by
  refine ⟨?_, ?_, ?_, ?_⟩ <;> with_unfolding_all decide

/-- The function `assignSlot` only writes the per-kind result slots. -/
theorem assignSlot_preserves (jr : JunctionResults) (r : AgentResult) :
    (assignSlot jr r).errors = jr.errors ∧
    (assignSlot jr r).decision = jr.decision ∧
    (assignSlot jr r).is_complete = jr.is_complete := by
  unfold assignSlot
  split_ifs <;> exact ⟨rfl, rfl, rfl⟩

/-- Projection form of `assignSlot_preserves` for rewriting. -/
theorem assignSlot_errors (jr : JunctionResults) (r : AgentResult) :
    (assignSlot jr r).errors = jr.errors :=
  (assignSlot_preserves jr r).1

/-- Folding `assignSlot` over the drained results leaves errors
unchanged. -/
theorem foldl_assignSlot_errors (received : List AgentResult) :
    ∀ jr : JunctionResults, (received.foldl assignSlot jr).errors = jr.errors := by
  induction received with
  | nil => intro jr; rfl
  | cons r rs ih =>
    intro jr
    rw [List.foldl_cons, ih, (assignSlot_preserves jr r).1]

/-- Shape of `JunctionProcessor.process` on a non-empty drained list
whose arbitration succeeded. -/
theorem process_cons_shape (junction : Junction) (idx : Nat) (r : AgentResult)
    (rs : List AgentResult) (d : JudgeDecision)
    (hd : JudgeAgent.evaluate junction (r :: rs) = Except.ok d) :
    (JunctionProcessor.process junction idx (r :: rs)).errors =
      ([AgentType.video, AgentType.music, AgentType.history].filter
        (fun ty => !(((r :: rs).map (fun x => x.agent_type)).contains ty))).map
          (fun ty => ty.value ++ " agent timed out") ∧
    (JunctionProcessor.process junction idx (r :: rs)).decision = some d ∧
    (JunctionProcessor.process junction idx (r :: rs)).is_complete = true := by
  simp only [JunctionProcessor.process]
  rw [hd]
  refine ⟨?_, rfl, rfl⟩
  simp [foldl_assignSlot_errors, assignSlot_errors]

/-- C2: for every junction and drained result list, each expected kind
with no received result contributes a timed-out error; a non-empty
drained list yields the stored Arbiter decision and `is_complete`; an
empty drained list yields the no-results error and an incomplete
result. -/
theorem process_contract (junction : Junction) (idx : Nat)
    (received : List AgentResult) :
    (∀ ty ∈ [AgentType.video, AgentType.music, AgentType.history],
      ty ∉ received.map (fun r => r.agent_type) →
        (ty.value ++ " agent timed out") ∈
          (JunctionProcessor.process junction idx received).errors) ∧
    (received ≠ [] → ∃ d, JudgeAgent.evaluate junction received = Except.ok d ∧
      (JunctionProcessor.process junction idx received).decision = some d ∧
      (JunctionProcessor.process junction idx received).is_complete = true) ∧
    (received = [] →
      "No agent results to evaluate" ∈
        (JunctionProcessor.process junction idx received).errors ∧
      (JunctionProcessor.process junction idx received).is_complete = false) := by
  refine ⟨?_, ?_, ?_⟩
  · intro ty hty hnot
    cases received with
    | nil =>
      have herr : (JunctionProcessor.process junction idx []).errors =
          ["video agent timed out", "music agent timed out",
           "history agent timed out", "No agent results to evaluate"] := rfl
      rw [herr]
      fin_cases hty <;> simp [AgentType.value]
    | cons r rs =>
      obtain ⟨d, hd⟩ := evaluate_ok_of_ne_nil junction (r :: rs) (by simp)
      rw [(process_cons_shape junction idx r rs d hd).1]
      refine List.mem_map.mpr ⟨ty, List.mem_filter.mpr ⟨hty, ?_⟩, rfl⟩
      simp
      refine ⟨fun he => hnot ?_, fun x hx he => hnot ?_⟩
      · rw [he]
        exact List.mem_map_of_mem _ (List.mem_cons_self r rs)
      · rw [← he]
        exact List.mem_map_of_mem _ (List.mem_cons_of_mem r hx)
  · intro hne
    cases received with
    | nil => exact absurd rfl hne
    | cons r rs =>
      obtain ⟨d, hd⟩ := evaluate_ok_of_ne_nil junction (r :: rs) (by simp)
      exact ⟨d, hd, (process_cons_shape junction idx r rs d hd).2.1,
        (process_cons_shape junction idx r rs d hd).2.2⟩
  · rintro rfl
    exact ⟨by rw [show (JunctionProcessor.process junction idx []).errors =
        ["video agent timed out", "music agent timed out",
         "history agent timed out", "No agent results to evaluate"] from rfl]; simp, rfl⟩

/-- Witness for C2 at a concrete junction with only the video result
delivered. -/
theorem process_contract_witness :
    (AgentType.music ∈ [AgentType.video, AgentType.music, AgentType.history] ∧
      AgentType.music ∉ [rVid].map (fun r => r.agent_type) ∧
      ("music agent timed out") ∈ (JunctionProcessor.process jX 0 [rVid]).errors) ∧
    (([rVid] : List AgentResult) ≠ [] ∧
      ∃ d, JudgeAgent.evaluate jX [rVid] = Except.ok d ∧
        (JunctionProcessor.process jX 0 [rVid]).decision = some d ∧
        (JunctionProcessor.process jX 0 [rVid]).is_complete = true) :=
  ⟨⟨by decide, by decide,
    (process_contract jX 0 [rVid]).1 AgentType.music (by decide) (by decide)⟩,
   ⟨by decide, (process_contract jX 0 [rVid]).2.1 (by decide)⟩⟩

/-- C7: after the epoch is recorded, fixed-interval scheduling (and the
fallback of every mode other than real-time) dispatches junction `i` at
`epoch + i * interval`; real-time scheduling dispatches at
`epoch + max(0, cumulative_duration / time_scale - pre_dispatch)`; and
the generated schedule entry at index `i` carries exactly the time the
mode selects (the schedule itself records its epoch at generation). -/
theorem tempo_scheduled_times (t : TempoController) (now epoch : ℚ) (i : Nat)
    (junction : Junction) (junctions : List Junction) (route : Route)
    (hstart : t.start_time = some epoch) :
    (t.getDispatchTime now i).2 =
      epoch + (i : ℚ) * t.config.junction_interval_seconds ∧
    (t.getDispatchTimeRealtime now junction).2 =
      epoch + max 0 ((junction.cumulative_duration_seconds : ℚ) / t.config.time_scale -
        t.config.pre_dispatch_seconds) ∧
    (t.generateSchedule now junctions (some route))[i]? =
      junctions[i]?.map (fun j =>
        (i, j, if t.config.mode = DispatchMode.real_time then
            now + max 0 ((j.cumulative_duration_seconds : ℚ) / t.config.time_scale -
              t.config.pre_dispatch_seconds)
          else now + (i : ℚ) * t.config.junction_interval_seconds)) := by
  refine ⟨?_, ?_, ?_⟩
  · simp [TempoController.getDispatchTime, hstart, apply_ite]
  · simp [TempoController.getDispatchTimeRealtime, hstart]
  · unfold TempoController.generateSchedule
    rw [List.getElem?_map, List.getElem?_enum]
    cases hj : junctions[i]? with
    | none => rfl
    | some j1 =>
      by_cases hm : t.config.mode = DispatchMode.real_time
      · simp [TempoController.start, TempoController.getDispatchTimeRealtime, hm]
      · simp [TempoController.start, TempoController.getDispatchTimeRealtime,
          TempoController.getDispatchTime, hm]

/-- Tempo controller with a recorded epoch, for the C7 witness. -/
def tcStarted : TempoController := { config := {}, start_time := some 100 }

/-- Witness for C7 at a concrete started controller (default
fixed-interval config, interval 30), index 3, and the concrete route. -/
theorem tempo_scheduled_times_witness :
    (tcStarted.start_time = some 100) ∧
    ((tcStarted.getDispatchTime 0 3).2 =
      100 + (3 : ℚ) * tcStarted.config.junction_interval_seconds ∧
    (tcStarted.getDispatchTimeRealtime 0 jX).2 =
      100 + max 0 ((jX.cumulative_duration_seconds : ℚ) / tcStarted.config.time_scale -
        tcStarted.config.pre_dispatch_seconds) ∧
    (tcStarted.generateSchedule 0 [jX, jY] (some route2))[3]? =
      ([jX, jY][3]?).map (fun j =>
        (3, j, if tcStarted.config.mode = DispatchMode.real_time then
            (0 : ℚ) + max 0 ((j.cumulative_duration_seconds : ℚ) / tcStarted.config.time_scale -
              tcStarted.config.pre_dispatch_seconds)
          else (0 : ℚ) + (3 : ℚ) * tcStarted.config.junction_interval_seconds))) :=
  ⟨rfl, tempo_scheduled_times tcStarted 0 100 3 jX [jX, jY] route2 rfl⟩

/-- The dispatch loop with no stop signal dispatches one event per
schedule entry, in order. -/
theorem runSyncLoop_none_map (t : TempoController) (route : Route) (now : ℚ) :
    ∀ schedule : List (Nat × Junction × ℚ),
      JunctionOrchestrator.runSyncLoop t route now none schedule =
        schedule.map (fun p =>
          JunctionOrchestrator.createEvent t route now p.2.1 p.1 p.2.2) := by
  intro schedule
  induction schedule with
  | nil => rfl
  | cons p rest ih =>
    obtain ⟨i, j, st⟩ := p
    simp [JunctionOrchestrator.runSyncLoop, stopSeen, ih]

/-- The event fields that depend only on the index and the route. -/
theorem createEvent_proj (t : TempoController) (route : Route) (now : ℚ)
    (j : Junction) (i : Nat) (st : ℚ) :
    (JunctionOrchestrator.createEvent t route now j i st).junction_index = i ∧
    (JunctionOrchestrator.createEvent t route now j i st).is_first = decide (i = 0) ∧
    (JunctionOrchestrator.createEvent t route now j i st).is_last =
      decide ((i : Int) = (route.junctions.length : Int) - 1) ∧
    (JunctionOrchestrator.createEvent t route now j i st).progress_percent =
      (if 0 < route.junctions.length then
        ((i : ℚ) / (route.junctions.length : ℚ)) * 100 else 0) := by
  cases hic : t.config.include_route_context <;>
    simp [JunctionOrchestrator.createEvent, hic]

/-- Projections of the event stream of an uninterrupted run depend only
on the event index: the stream projects to `g` mapped over the index
range. -/
theorem runSync_map_proj {β : Type} (t : TempoController) (now : ℚ) (route : Route)
    (proj : JunctionEvent → β) (g : Nat → β)
    (hproj : ∀ j i st,
      proj (JunctionOrchestrator.createEvent (t.start now) route now j i st) = g i) :
    ((JunctionOrchestrator.runSync t now route none).1).map proj =
      (List.range route.junctions.length).map g := by
  show (JunctionOrchestrator.runSyncLoop (t.start now) route now none
      (TempoController.generateSchedule t now route.junctions (some route))).map proj =
    (List.range route.junctions.length).map g
  rw [runSyncLoop_none_map, List.map_map]
  unfold TempoController.generateSchedule
  rw [List.map_map]
  apply List.ext_getElem
  · simp
  · intro n h1 h2
    simp only [List.getElem_map, List.getElem_enum, List.getElem_range, Function.comp]
    by_cases hc : ((t.start now).config.mode = DispatchMode.real_time && (some route).isSome) = true
    · rw [if_pos hc]
      exact hproj _ _ _
    · rw [if_neg hc]
      exact hproj _ _ _

/-- C8: an uninterrupted run over a route with at least one junction
emits exactly one event per junction, with indices strictly increasing
from 0 to N-1 (the index stream is `range N`), `is_first` true exactly
at index 0, `is_last` true exactly at index N-1, and progress
`index / N * 100`. -/
theorem dispatcher_event_stream (t : TempoController) (now : ℚ) (route : Route)
    (hN : 1 ≤ route.junctions.length) :
    ((JunctionOrchestrator.runSync t now route none).1).length =
      route.junctions.length ∧
    ((JunctionOrchestrator.runSync t now route none).1).map
        (fun e => e.junction_index) = List.range route.junctions.length ∧
    ((JunctionOrchestrator.runSync t now route none).1).map (fun e => e.is_first) =
      (List.range route.junctions.length).map (fun k => decide (k = 0)) ∧
    ((JunctionOrchestrator.runSync t now route none).1).map (fun e => e.is_last) =
      (List.range route.junctions.length).map
        (fun k => decide (k + 1 = route.junctions.length)) ∧
    ((JunctionOrchestrator.runSync t now route none).1).map
        (fun e => e.progress_percent) =
      (List.range route.junctions.length).map
        (fun k : Nat => (k : ℚ) / (route.junctions.length : ℚ) * 100) := by
  have hidx := runSync_map_proj t now route (fun e => e.junction_index) (fun i => i)
    (fun j i st => (createEvent_proj (t.start now) route now j i st).1)
  have hfirst := runSync_map_proj t now route (fun e => e.is_first)
    (fun i => decide (i = 0))
    (fun j i st => (createEvent_proj (t.start now) route now j i st).2.1)
  have hlast := runSync_map_proj t now route (fun e => e.is_last)
    (fun i => decide ((i : Int) = (route.junctions.length : Int) - 1))
    (fun j i st => (createEvent_proj (t.start now) route now j i st).2.2.1)
  have hprog := runSync_map_proj t now route (fun e => e.progress_percent)
    (fun i => if 0 < route.junctions.length then
      ((i : ℚ) / (route.junctions.length : ℚ)) * 100 else 0)
    (fun j i st => (createEvent_proj (t.start now) route now j i st).2.2.2)
  refine ⟨?_, ?_, hfirst, ?_, ?_⟩
  · have hlen := congrArg List.length hidx
    simpa using hlen
  · simpa using hidx
  · rw [hlast]
    exact list_map_congr_fun (fun k => decide_eq_decide.mpr (by omega)) _
  · rw [hprog]
    exact list_map_congr_fun (fun k => by rw [if_pos (by omega)]) _

/-- Witness for C8 at the concrete two-junction route. -/
theorem dispatcher_event_stream_witness :
    (1 ≤ route2.junctions.length) ∧
    (((JunctionOrchestrator.runSync tcFixed 0 route2 none).1).length =
      route2.junctions.length ∧
    ((JunctionOrchestrator.runSync tcFixed 0 route2 none).1).map
        (fun e => e.junction_index) = List.range route2.junctions.length ∧
    ((JunctionOrchestrator.runSync tcFixed 0 route2 none).1).map (fun e => e.is_first) =
      (List.range route2.junctions.length).map (fun k => decide (k = 0)) ∧
    ((JunctionOrchestrator.runSync tcFixed 0 route2 none).1).map (fun e => e.is_last) =
      (List.range route2.junctions.length).map
        (fun k => decide (k + 1 = route2.junctions.length)) ∧
    ((JunctionOrchestrator.runSync tcFixed 0 route2 none).1).map
        (fun e => e.progress_percent) =
      (List.range route2.junctions.length).map
        (fun k : Nat => (k : ℚ) / (route2.junctions.length : ℚ) * 100)) :=
  ⟨by decide, dispatcher_event_stream tcFixed 0 route2 (by decide)⟩

/-- C3 evaluated at a stopped run: the source's `_run_sync` assigns
COMPLETED unconditionally after its loop, so a run whose stop flag was
observed before the first dispatch still ends `_run_sync` in the
Completed state with no event emitted (the last junction's event
included) — the claimed never-Completed property fails. -/
theorem runSync_interrupted_still_completed :
    (JunctionOrchestrator.runSync tcFixed 0 route2 (some 0)).2 =
      OrchestratorState.completed ∧
    (JunctionOrchestrator.runSync tcFixed 0 route2 (some 0)).1 = [] ∧
    route2.junctions.length = 2 := by
  refine ⟨rfl, ?_, rfl⟩
  with_unfolding_all decide

/-- C9: the interval setter rejects non-positive values without touching
the stored state, and on a positive value changes exactly the stored
interval — pause bookkeeping and the epoch are untouched, and future
scheduled-time computations use the new interval. -/
theorem setInterval_contract (t : TempoController) (v : ℚ) :
    (v ≤ 0 → (t.setIntervalSeconds v).1 = Except.error "Interval must be positive" ∧
      (t.setIntervalSeconds v).2 = t) ∧
    (0 < v →
      (t.setIntervalSeconds v).1 = Except.ok () ∧
      (t.setIntervalSeconds v).2.config.junction_interval_seconds = v ∧
      (t.setIntervalSeconds v).2.config.mode = t.config.mode ∧
      (t.setIntervalSeconds v).2.config.time_scale = t.config.time_scale ∧
      (t.setIntervalSeconds v).2.config.pre_dispatch_seconds =
        t.config.pre_dispatch_seconds ∧
      (t.setIntervalSeconds v).2.start_time = t.start_time ∧
      (t.setIntervalSeconds v).2.pause_time = t.pause_time ∧
      (t.setIntervalSeconds v).2.paused_duration = t.paused_duration ∧
      (t.setIntervalSeconds v).2.is_paused = t.is_paused ∧
      ∀ (now : ℚ) (i : Nat),
        ((t.setIntervalSeconds v).2.getDispatchTime now i).2 =
          (t.start_time.getD now) + (i : ℚ) * v) := by
  constructor
  · intro hv
    unfold TempoController.setIntervalSeconds
    rw [if_pos hv]
    exact ⟨rfl, rfl⟩
  · intro hv
    have hne : ¬ v ≤ 0 := not_le.mpr hv
    unfold TempoController.setIntervalSeconds
    rw [if_neg hne]
    refine ⟨rfl, rfl, rfl, rfl, rfl, rfl, rfl, rfl, rfl, ?_⟩
    intro now i
    cases h : t.start_time <;>
      simp [TempoController.getDispatchTime, h, apply_ite]

/-- Witness for C9: a rejected non-positive update leaves the controller
unchanged; an accepted update stores the new interval. -/
theorem setInterval_contract_witness :
    (((-1 : ℚ) ≤ 0) ∧ (tcFixed.setIntervalSeconds (-1)).2 = tcFixed) ∧
    (((0 : ℚ) < 10) ∧
      (tcFixed.setIntervalSeconds 10).2.config.junction_interval_seconds = 10) :=
  ⟨⟨by norm_num, ((setInterval_contract tcFixed (-1)).1 (by norm_num)).2⟩,
   ⟨by norm_num, ((setInterval_contract tcFixed 10).2 (by norm_num)).2.1⟩⟩

/-- C10: `success_rate` is total — 0 when the report has no junctions,
and otherwise the guarded percentage, stated multiplicatively to exhibit
the well-defined division. -/
theorem success_rate_total (r : FinalReport) :
    (r.total_junctions = 0 → r.success_rate = 0) ∧
    (r.total_junctions ≠ 0 →
      r.success_rate * (r.total_junctions : ℚ) =
        ((r.total_junctions : ℚ) - (r.failed_junctions : ℚ)) * 100) := by
  constructor
  · intro h
    unfold FinalReport.success_rate
    rw [if_pos h]
  · intro h
    have hq : ((r.total_junctions : ℚ)) ≠ 0 := Nat.cast_ne_zero.mpr h
    unfold FinalReport.success_rate
    rw [if_neg h]
    field_simp

/-- Concrete report for the C10 witness. -/
def report4 : FinalReport :=
  { source_address := "A"
    destination_address := "B"
    total_junctions := 4
    failed_junctions := 1 }

/-- Witness for C10 at a concrete report with 4 junctions, 1 failed. -/
theorem success_rate_total_witness :
    (report4.total_junctions ≠ 0) ∧
    report4.success_rate * (report4.total_junctions : ℚ) =
      ((report4.total_junctions : ℚ) - (report4.failed_junctions : ℚ)) * 100 :=
  ⟨by decide, (success_rate_total report4).2 (by decide)⟩
